import Mathlib

/-!
Verification of the magellan BMC collection core, a shallow embedding of
`internal/collect.go`.  External effects (file reads, PEM parsing, bmclib and
gofish network calls) are modelled as explicit oracle parameters; everything
else follows the Go source line by line.  The JSON layer models the parts of
`encoding/json` the code relies on: `Unmarshal` into an existing map merges
keys, indexing a map at a missing key yields the zero value, and a nil
`json.RawMessage` marshals as JSON `null`.
-/

deriving instance DecidableEq for Except

namespace Magellan

/-- Model of a flat JSON value as stored in the `data` map. `payload n`
stands for an abstract marshalled value returned by a BMC query (inventory
data, chassis data, ...); `null` is the JSON null that a nil
`json.RawMessage` marshals to.  A marshalled JSON object is modelled by its
top-level key/value list, `List (String × Jval)`. -/
inductive Jval where
  | null : Jval
  | str (s : String) : Jval
  | bool (b : Bool) : Jval
  | payload (n : Nat) : Jval
deriving Repr, DecidableEq

/-- Lookup in an association list modelling a Go `map[string]...`. -/
def alookup (m : List (String × Jval)) (k : String) : Option Jval :=
  match m with
  | [] => none
  | (k2, v) :: rest => if k2 = k then some v else alookup rest k

/-- Go map assignment `m[k] = v`: overwrite the existing key or add it. -/
def aset (m : List (String × Jval)) (k : String) (v : Jval) : List (String × Jval) :=
  match m with
  | [] => [(k, v)]
  | (k2, v2) :: rest => if k2 = k then (k2, v) :: rest else (k2, v2) :: aset rest k v

/-- Model of `json.Unmarshal(b, &rm)` where `rm` is a `map[string]json.RawMessage`
and `b` marshals the object `kvs`: unmarshalling an object into an existing
map merges the object keys into it, keeping entries for keys the object does
not mention.  (When the bytes are nil or invalid the Go call returns an error,
which the caller of interest discards, and leaves `rm` unchanged; that path is
the identity and is handled at the call sites.) -/
def unmarshalMerge (rm : List (String × Jval)) (kvs : List (String × Jval)) :
    List (String × Jval) :=
  kvs.foldl (fun m kv => aset m kv.1 kv.2) rm

/-- Go map indexing `rm[k]`: a missing key yields the zero value, a nil
`json.RawMessage`, which marshals as JSON `null`. -/
def rawLookup (rm : List (String × Jval)) (k : String) : Jval :=
  (alookup rm k).getD Jval.null

/-- Mirror of `BMCProbeResult` from collect.go. `State` is the reachability
flag the scanner produced. -/
structure BMCProbeResult where
  Host : String
  Port : Nat
  Protocol : String
  State : Bool
deriving Repr, DecidableEq

/-- Mirror of `QueryParams` from collect.go. -/
structure QueryParams where
  Host : String
  Port : Nat
  User : String
  Pass : String
  Drivers : List String
  Threads : Nat
  Preferred : String
  Timeout : Nat
  WithSecureTLS : Bool
  CertPoolFile : String
  Verbose : Bool
  IpmitoolPath : String
  OutputPath : String
deriving Repr, DecidableEq

/-- The bmclib client options assembled by `NewClient`.  The two HTTP client
options record the `InsecureSkipVerify` field of the `tls.Config` of the
`http.Transport` they carry.  `withSecureTLS none` models
`bmclib.WithSecureTLS(nil)` (nil pool: system certificates) and
`withSecureTLS (some certs)` models a custom pool holding `certs`. -/
inductive BmclibOption where
  | withHTTPClient (insecureSkipVerify : Bool) : BmclibOption
  | withRedfishHTTPClient (insecureSkipVerify : Bool) : BmclibOption
  | withRedfishPort (port : String) : BmclibOption
  | withRedfishUseBasicAuth : BmclibOption
  | withIpmitoolPort (port : String) : BmclibOption
  | withIpmitoolPath (p : String) : BmclibOption
  | withSecureTLS (pool : Option (List Nat)) : BmclibOption
deriving Repr, DecidableEq

/-- The client value `NewClient` builds: the connection URL, credentials, the
option list in the order the Go code appends them, and the driver list. -/
structure BmclibClient where
  url : String
  user : String
  pass : String
  opts : List BmclibOption
  drivers : List String
deriving Repr, DecidableEq

/-- Mirror of `NewClient` (collect.go lines 60 to 112).  `readFile` is the
`os.ReadFile` oracle (`none` = read error) and `appendCertsFromPEM` is the
`x509.CertPool.AppendCertsFromPEM` oracle, returning the certificates parsed
out of the data; the Go code discards its boolean result, so a parse failure
(empty result) is invisible here, exactly as in the source. -/
def NewClient (readFile : String → Option (List Nat))
    (appendCertsFromPEM : List Nat → List Nat)
    (q : QueryParams) : Except String BmclibClient :=
  let clientOpts : List BmclibOption :=
    [ BmclibOption.withHTTPClient true,
      BmclibOption.withRedfishHTTPClient true,
      BmclibOption.withRedfishPort (toString q.Port),
      BmclibOption.withRedfishUseBasicAuth,
      BmclibOption.withIpmitoolPort (toString 623),
      BmclibOption.withIpmitoolPath q.IpmitoolPath ]
  let optsRes : Except String (List BmclibOption) :=
    if q.WithSecureTLS then
      if q.CertPoolFile ≠ "" then
        match readFile q.CertPoolFile with
        | none => Except.error "could not read cert pool file"
        | some data =>
            Except.ok (clientOpts ++ [BmclibOption.withSecureTLS (some (appendCertsFromPEM data))])
      else
        Except.ok (clientOpts ++ [BmclibOption.withSecureTLS none])
    else Except.ok clientOpts
  match optsRes with
  | Except.error e => Except.error e
  | Except.ok opts =>
    let url :=
      if q.User ≠ "" ∧ q.Pass ≠ "" then
        "https://" ++ q.User ++ ":" ++ q.Pass ++ "@" ++ q.Host
      else q.Host
    Except.ok { url := url, user := q.User, pass := q.Pass, opts := opts, drivers := q.Drivers }

/-- Oracle for one bmclib session: whether
`client.Registry.FilterForCompatible; client.Open(ctx)` succeeds, and the
payload `client.Inventory(ctx)` returns (`none` = error). -/
structure BmclibEnv where
  openOk : Bool
  inventory : Option Nat
deriving Repr, DecidableEq

/-- Oracle for one `gofish.Connect` session made by `connectGofish`: whether
the connection succeeds, and the payload of the one service call the caller
makes (`none` = that call errors). -/
structure GofishEnv where
  connectOk : Bool
  result : Option Nat
deriving Repr, DecidableEq

/-- How many network sessions a query function opened, and how many of those
it closed before returning. -/
structure ConnCount where
  opened : Nat
  closed : Nat
deriving Repr, DecidableEq

/-- Sum of two connection counts. -/
def addConn (a b : ConnCount) : ConnCount :=
  { opened := a.opened + b.opened, closed := a.closed + b.closed }

/-- Mirror of `QueryInventory` (collect.go lines 335 to 366).  On a successful
open the session is always closed again (`defer client.Close(ctx)`), on both
the error and the success path.  The marshalled result nests the payload under
the key `Inventory`. -/
def QueryInventory (env : BmclibEnv) : Except String (List (String × Jval)) × ConnCount :=
  if env.openOk then
    match env.inventory with
    | none => (Except.error "could not get inventory", { opened := 1, closed := 1 })
    | some p =>
        (Except.ok [("Inventory", Jval.payload p)], { opened := 1, closed := 1 })
  else (Except.error "could not open client", { opened := 0, closed := 0 })

/-- Mirror of `QueryChassis` (collect.go lines 469 to 489).  The gofish
connection opened by `connectGofish` is never logged out, on the error path or
the success path, hence `closed = 0` whenever the connect succeeded. -/
def QueryChassis (env : GofishEnv) : Except String (List (String × Jval)) × ConnCount :=
  if env.connectOk then
    match env.result with
    | none => (Except.error "could not query chassis", { opened := 1, closed := 0 })
    | some p =>
        (Except.ok [("Chassis", Jval.payload p)], { opened := 1, closed := 0 })
  else (Except.error "could not connect to bmc", { opened := 0, closed := 0 })

/-- Mirror of `QueryEthernetInterfaces` (collect.go lines 446 to 467).  Note
the marshalled result nests the payload under the key `Interfaces` (line 457),
while the caller in `CollectInfo` reads the key `Interface`.  The connection
is never logged out. -/
def QueryEthernetInterfaces (env : GofishEnv) : Except String (List (String × Jval)) × ConnCount :=
  if env.connectOk then
    match env.result with
    | none => (Except.error "could not get ethernet interfaces", { opened := 1, closed := 0 })
    | some p =>
        (Except.ok [("Interfaces", Jval.payload p)], { opened := 1, closed := 0 })
  else (Except.error "could not connect to bmc", { opened := 0, closed := 0 })

/-- Mirror of `QuerySystems` (collect.go lines 524 to 545).  The connection is
never logged out. -/
def QuerySystems (env : GofishEnv) : Except String (List (String × Jval)) × ConnCount :=
  if env.connectOk then
    match env.result with
    | none => (Except.error "could not query storage systems", { opened := 1, closed := 0 })
    | some p =>
        (Except.ok [("Systems", Jval.payload p)], { opened := 1, closed := 0 })
  else (Except.error "could not connect to bmc", { opened := 0, closed := 0 })

/-- The four enabled inventory categories, in the fixed order the worker body
of `CollectInfo` runs them. -/
inductive Category where
  | inventory : Category
  | chassis : Category
  | ethernet : Category
  | systems : Category
deriving Repr, DecidableEq

/-- All oracles for one host: whether `NewClient` succeeds, the bmclib session
used by `QueryInventory`, and the three independent gofish sessions opened by
`QueryChassis`, `QueryEthernetInterfaces` and `QuerySystems`. -/
structure HostEnv where
  clientOk : Bool
  inv : BmclibEnv
  cha : GofishEnv
  eth : GofishEnv
  sys : GofishEnv
deriving Repr, DecidableEq

/-- Result of the worker body for one host: which category queries were
executed, which failed (were logged), whether building the client failed, the
`data` object written and forwarded (`none` when the host was aborted before
the write), and the total connection ledger. -/
structure CollectResult where
  ran : List Category
  errs : List Category
  clientErr : Bool
  record : Option (List (String × Jval))
  conns : ConnCount
deriving Repr, DecidableEq

/-- The identifier string `CollectInfo` assigns: `node.String()` for the
xnames node x1000c1s7b(NodeBMC)n0 with the last two characters (the `n0`
part) sliced off, leaving the NodeBMC counter value as the suffix. -/
def idOfNode (nodeBMC : Int) : String :=
  "x1000c1s7b" ++ toString nodeBMC

/-- Mirror of the worker body of `CollectInfo` (collect.go lines 146 to 270)
for one task.  `nodeBMC` is the value of the shared counter at the moment
line 164 reads it.  Behaviour per category, straight from the source:
a `NewClient` error skips the host (`continue`, line 159); an Inventory error
is logged and the body falls through (lines 177 to 179); a Chassis error or an
EthernetInterfaces error executes `continue`, abandoning the host with no
record (lines 187 and 196); a Systems error is logged and the body falls
through (lines 212 to 214).  The `rm` map is freshly nil per task and merges
the keys of every successfully unmarshalled query result. -/
def collectHost (host user pass : String) (nodeBMC : Int) (e : HostEnv) : CollectResult :=
  if e.clientOk then
    let data0 : List (String × Jval) :=
      [ ("ID", Jval.str (idOfNode nodeBMC)),
        ("Type", Jval.str ""),
        ("Name", Jval.str ""),
        ("FQDN", Jval.str host),
        ("User", Jval.str user),
        ("Password", Jval.str pass),
        ("RediscoverOnUpdate", Jval.bool false) ]
    let rm0 : List (String × Jval) := []
    let invQ := QueryInventory e.inv
    let invErrs : List Category :=
      match invQ.1 with
      | Except.error _ => [Category.inventory]
      | Except.ok _ => []
    let rm1 :=
      match invQ.1 with
      | Except.ok b => unmarshalMerge rm0 b
      | Except.error _ => rm0
    let data1 := aset data0 "Inventory" (rawLookup rm1 "Inventory")
    let chaQ := QueryChassis e.cha
    match chaQ.1 with
    | Except.error _ =>
        { ran := [Category.inventory, Category.chassis],
          errs := invErrs ++ [Category.chassis],
          clientErr := false,
          record := none,
          conns := addConn invQ.2 chaQ.2 }
    | Except.ok chaB =>
      let rm2 := unmarshalMerge rm1 chaB
      let data2 := aset data1 "Chassis" (rawLookup rm2 "Chassis")
      let ethQ := QueryEthernetInterfaces e.eth
      match ethQ.1 with
      | Except.error _ =>
          { ran := [Category.inventory, Category.chassis, Category.ethernet],
            errs := invErrs ++ [Category.ethernet],
            clientErr := false,
            record := none,
            conns := addConn (addConn invQ.2 chaQ.2) ethQ.2 }
      | Except.ok ethB =>
        let rm3 := unmarshalMerge rm2 ethB
        let data3 := aset data2 "Interface" (rawLookup rm3 "Interface")
        let sysQ := QuerySystems e.sys
        let sysErrs : List Category :=
          match sysQ.1 with
          | Except.error _ => [Category.systems]
          | Except.ok _ => []
        let rm4 :=
          match sysQ.1 with
          | Except.ok b => unmarshalMerge rm3 b
          | Except.error _ => rm3
        let data4 := aset data3 "Systems" (rawLookup rm4 "Systems")
        { ran := [Category.inventory, Category.chassis, Category.ethernet, Category.systems],
          errs := invErrs ++ sysErrs,
          clientErr := false,
          record := some data4,
          conns := addConn (addConn (addConn invQ.2 chaQ.2) ethQ.2) sysQ.2 }
  else
    { ran := [], errs := [], clientErr := true, record := none,
      conns := { opened := 0, closed := 0 } }

/-!
Interleaving model of the concurrency skeleton of `CollectInfo`
(collect.go lines 138 to 298): the main goroutine dispatching into the
bounded channel `chanProbeState` (capacity `Threads + 1`), `Threads` worker
goroutines, the `sync.WaitGroup` counter, the shared unsynchronized
`node.NodeBMC` identifier counter, the shared `found` slice used for dedup,
and the secondary goroutine polling the `done` channel (lines 285 to 293).
A schedule is a list of thread picks; a pick of a thread whose next action is
blocked or that has finished leaves the state unchanged.  Per-host collection
is abstracted by the oracle `ok`: `ok t = true` means the task reaches line
226 (identifier increment, record write, `found` append), `ok t = false`
means the worker hits one of the `continue` statements before line 226.
-/

/-- Phase of one worker goroutine.  `haveId t snap` records the value of the
shared `NodeBMC` counter the worker read at line 164 for the `ID` field. -/
inductive WorkerPhase where
  | idle : WorkerPhase
  | gotTask (t : BMCProbeResult) : WorkerPhase
  | haveId (t : BMCProbeResult) (snap : Int) : WorkerPhase
  | exited : WorkerPhase
deriving Repr, DecidableEq

/-- Program counter of the main goroutine of `CollectInfo`: the dispatch loop
over `probeStates` (lines 275 to 282), spawning the secondary done goroutine
(line 285), `close(chanProbeState)` (line 295), `wg.Wait()` (line 296),
`close(done)` (line 297) and the final `return` (line 298). -/
inductive MainPC where
  | dispatch (i : Nat) : MainPC
  | spawnSec : MainPC
  | closeChan : MainPC
  | waitJoin : MainPC
  | closeDone : MainPC
  | returned : MainPC
deriving Repr, DecidableEq

/-- Phase of the secondary done-polling goroutine. -/
inductive SecPhase where
  | notSpawned : SecPhase
  | runnable : SecPhase
  | finished : SecPhase
deriving Repr, DecidableEq

/-- Global state of the interleaving model.  `dispatched` is the append-only
ledger of every task sent into the channel, `recordedIds` the ledger of `ID`
values of the records written, `counter` the WaitGroup counter, and
`panicked` is set when the WaitGroup counter is driven negative (the Go
runtime panics on a negative `sync.WaitGroup` counter). -/
structure OrchState where
  probes : List BMCProbeResult
  threads : Nat
  queue : List BMCProbeResult
  closedChan : Bool
  counter : Int
  nodeBMC : Int
  found : List String
  dispatched : List BMCProbeResult
  recordedIds : List String
  mainPC : MainPC
  workers : List WorkerPhase
  sec : SecPhase
  closedDone : Bool
  secFired : Bool
  panicked : Bool
deriving Repr, DecidableEq

/-- A thread pick for one interleaving step. -/
inductive Thread where
  | main : Thread
  | worker (i : Nat) : Thread
  | sec : Thread
deriving Repr, DecidableEq

/-- Initial state of `CollectInfo`: empty channel, WaitGroup counter set to
`Threads` by `wg.Add(q.Threads)` (line 144), `NodeBMC` starting at `-1`
(line 128), all workers idle, secondary goroutine not yet spawned. -/
def initState (probes : List BMCProbeResult) (threads : Nat) : OrchState :=
  { probes := probes, threads := threads, queue := [], closedChan := false,
    counter := (threads : Int), nodeBMC := -1, found := [], dispatched := [],
    recordedIds := [], mainPC := MainPC.dispatch 0,
    workers := List.replicate threads WorkerPhase.idle,
    sec := SecPhase.notSpawned, closedDone := false, secFired := false,
    panicked := false }

/-- One `wg.Done()` call: decrement the counter, panicking when it goes
negative. -/
def wgDone (s : OrchState) : OrchState :=
  { s with counter := s.counter - 1,
           panicked := s.panicked || decide (s.counter - 1 < 0) }

/-- One step of worker goroutine `i` (collect.go lines 146 to 270).
From idle: receive from the channel, draining the buffer even when closed,
and exit with `wg.Done()` when the channel is closed and empty.  From
`gotTask`: if the oracle says the task aborts (a `continue` before line 226),
go back to receiving; otherwise read the shared `NodeBMC` counter for the
`ID` field (line 164).  From `haveId`: increment the shared counter (line
226), append the identifier of the written record and the host to the shared
`found` slice (line 269), then go back to receiving. -/
def workerStep (ok : BMCProbeResult → Bool) (s : OrchState) (i : Nat) : OrchState :=
  match s.workers[i]? with
  | none => s
  | some WorkerPhase.idle =>
      match s.queue with
      | t :: rest =>
          { s with queue := rest, workers := s.workers.set i (WorkerPhase.gotTask t) }
      | [] =>
          if s.closedChan then
            let s2 := wgDone s
            { s2 with workers := s2.workers.set i WorkerPhase.exited }
          else s
  | some (WorkerPhase.gotTask t) =>
      if ok t then { s with workers := s.workers.set i (WorkerPhase.haveId t s.nodeBMC) }
      else { s with workers := s.workers.set i WorkerPhase.idle }
  | some (WorkerPhase.haveId t snap) =>
      { s with nodeBMC := s.nodeBMC + 1,
               recordedIds := s.recordedIds ++ [idOfNode snap],
               found := s.found ++ [t.Host],
               workers := s.workers.set i WorkerPhase.idle }
  | some WorkerPhase.exited => s

/-- One step of the main goroutine.  The dispatch loop skips a probe result
when `!ps.State` or its host is already in `found` (lines 277 to 280) and
otherwise sends it into the channel, blocking while the buffer (capacity
`Threads + 1`) is full.  `wg.Wait()` proceeds only when the counter is 0. -/
def mainStep (s : OrchState) : OrchState :=
  match s.mainPC with
  | MainPC.dispatch i =>
      match s.probes[i]? with
      | none => { s with mainPC := MainPC.spawnSec }
      | some ps =>
          if ps.State = false ∨ s.found.contains ps.Host then
            { s with mainPC := MainPC.dispatch (i + 1) }
          else if s.queue.length < s.threads + 1 then
            { s with queue := s.queue ++ [ps],
                     dispatched := s.dispatched ++ [ps],
                     mainPC := MainPC.dispatch (i + 1) }
          else s
  | MainPC.spawnSec => { s with sec := SecPhase.runnable, mainPC := MainPC.closeChan }
  | MainPC.closeChan => { s with closedChan := true, mainPC := MainPC.waitJoin }
  | MainPC.waitJoin => if s.counter = 0 then { s with mainPC := MainPC.closeDone } else s
  | MainPC.closeDone => { s with closedDone := true, mainPC := MainPC.returned }
  | MainPC.returned => s

/-- One step of the secondary done goroutine (collect.go lines 285 to 293):
a non-blocking select on the `done` channel.  When `done` is already closed
the `case <-done` branch fires and calls `wg.Done()`; otherwise the
`default` branch sleeps and the goroutine finishes without effect. -/
def secStep (s : OrchState) : OrchState :=
  match s.sec with
  | SecPhase.runnable =>
      if s.closedDone then
        let s2 := wgDone s
        { s2 with sec := SecPhase.finished, secFired := true }
      else { s with sec := SecPhase.finished }
  | _ => s

/-- One interleaving step: the picked thread performs its next enabled
action, or nothing when blocked or finished. -/
def step (ok : BMCProbeResult → Bool) (s : OrchState) : Thread → OrchState
  | Thread.main => mainStep s
  | Thread.worker i => workerStep ok s i
  | Thread.sec => secStep s

/-- Run the interleaving model under a schedule. -/
def runSched (ok : BMCProbeResult → Bool) (s : OrchState) (sched : List Thread) : OrchState :=
  sched.foldl (step ok) s

/-- Number of workers that have exited. -/
def exitedCount (s : OrchState) : Nat :=
  s.workers.countP (fun w => w == WorkerPhase.exited)

/-- A gofish category query succeeds iff the connect succeeds and the service
call returns a payload. -/
def gofishOk (g : GofishEnv) : Bool :=
  g.connectOk && g.result.isSome

/-- The bmclib Inventory query succeeds iff the session opens and
`client.Inventory` returns a payload. -/
def bmclibOk (b : BmclibEnv) : Bool :=
  b.openOk && b.inventory.isSome

/-- C1 counterexample: with a working client, a successful Inventory query, a
failing Chassis query, and EthernetInterfaces and Systems queries that would
succeed, the worker body stops after Chassis: EthernetInterfaces and Systems
never run and no record is persisted or forwarded, contradicting the claim
that a category failure never prevents later categories from running and
never prevents persistence. -/
theorem chassis_failure_skips_rest_counterexample :
    (collectHost "h1" "u" "p" 0
        ⟨true, ⟨true, some 1⟩, ⟨true, none⟩, ⟨true, some 3⟩, ⟨true, some 4⟩⟩).ran =
      [Category.inventory, Category.chassis] ∧
    Category.ethernet ∉
      (collectHost "h1" "u" "p" 0
        ⟨true, ⟨true, some 1⟩, ⟨true, none⟩, ⟨true, some 3⟩, ⟨true, some 4⟩⟩).ran ∧
    Category.systems ∉
      (collectHost "h1" "u" "p" 0
        ⟨true, ⟨true, some 1⟩, ⟨true, none⟩, ⟨true, some 3⟩, ⟨true, some 4⟩⟩).ran ∧
    (collectHost "h1" "u" "p" 0
        ⟨true, ⟨true, some 1⟩, ⟨true, none⟩, ⟨true, some 3⟩, ⟨true, some 4⟩⟩).record = none := by
  decide

/-- C1 amended: the category-failure policy the code actually implements.
With a working client, Inventory and Chassis always run, so an Inventory
failure never stops later categories; when Chassis and EthernetInterfaces
both succeed, all four categories run and the record is persisted, whatever
Inventory and Systems did; a Chassis failure stops the host after Chassis
with no record; an EthernetInterfaces failure stops the host after
EthernetInterfaces with no record.  And every category failure is recorded
in the per-category error list: a failed Inventory query puts `inventory`
in `errs`, a failed Systems query (reached when Chassis and
EthernetInterfaces succeeded) puts `systems` in `errs`, and the aborting
Chassis and EthernetInterfaces failures put `chassis` and `ethernet` in
`errs` respectively. -/
theorem category_failure_policy (host user pass : String) (n : Int) (e : HostEnv)
    (hc : e.clientOk = true) :
    (Category.inventory ∈ (collectHost host user pass n e).ran ∧
      Category.chassis ∈ (collectHost host user pass n e).ran) ∧
    (gofishOk e.cha = true → gofishOk e.eth = true →
      (collectHost host user pass n e).ran =
        [Category.inventory, Category.chassis, Category.ethernet, Category.systems] ∧
      (collectHost host user pass n e).record.isSome = true) ∧
    (gofishOk e.cha = false →
      (collectHost host user pass n e).ran = [Category.inventory, Category.chassis] ∧
      (collectHost host user pass n e).record = none) ∧
    (gofishOk e.cha = true → gofishOk e.eth = false →
      (collectHost host user pass n e).ran =
        [Category.inventory, Category.chassis, Category.ethernet] ∧
      (collectHost host user pass n e).record = none) ∧
    (bmclibOk e.inv = false →
      Category.inventory ∈ (collectHost host user pass n e).errs) ∧
    (gofishOk e.cha = true → gofishOk e.eth = true → gofishOk e.sys = false →
      Category.systems ∈ (collectHost host user pass n e).errs) ∧
    (gofishOk e.cha = false →
      Category.chassis ∈ (collectHost host user pass n e).errs) ∧
    (gofishOk e.cha = true → gofishOk e.eth = false →
      Category.ethernet ∈ (collectHost host user pass n e).errs) := by
  rcases e with ⟨co, ⟨io, iv⟩, ⟨cc, cr⟩, ⟨ec, er⟩, ⟨sc, sr⟩⟩
  simp only at hc
  subst hc
  cases io <;> cases iv <;> cases cc <;> cases cr <;> cases ec <;> cases er <;>
      cases sc <;> cases sr <;>
    simp [collectHost, QueryInventory, QueryChassis, QueryEthernetInterfaces,
      QuerySystems, gofishOk, bmclibOk]

/-- C1 amended witness: the policy instantiated at a host whose Inventory
and Systems queries fail while Chassis and EthernetInterfaces succeed, so
both failures are recorded in the error list and the record is still
persisted. -/
theorem category_failure_policy_witness :
    (Category.inventory ∈ (collectHost "h1" "u" "p" 0
        ⟨true, ⟨true, none⟩, ⟨true, some 2⟩, ⟨true, some 3⟩, ⟨true, none⟩⟩).ran ∧
      Category.chassis ∈ (collectHost "h1" "u" "p" 0
        ⟨true, ⟨true, none⟩, ⟨true, some 2⟩, ⟨true, some 3⟩, ⟨true, none⟩⟩).ran) ∧
    (gofishOk ⟨true, some 2⟩ = true → gofishOk ⟨true, some 3⟩ = true →
      (collectHost "h1" "u" "p" 0
        ⟨true, ⟨true, none⟩, ⟨true, some 2⟩, ⟨true, some 3⟩, ⟨true, none⟩⟩).ran =
        [Category.inventory, Category.chassis, Category.ethernet, Category.systems] ∧
      (collectHost "h1" "u" "p" 0
        ⟨true, ⟨true, none⟩, ⟨true, some 2⟩, ⟨true, some 3⟩, ⟨true, none⟩⟩).record.isSome = true) ∧
    (gofishOk ⟨true, some 2⟩ = false →
      (collectHost "h1" "u" "p" 0
        ⟨true, ⟨true, none⟩, ⟨true, some 2⟩, ⟨true, some 3⟩, ⟨true, none⟩⟩).ran =
        [Category.inventory, Category.chassis] ∧
      (collectHost "h1" "u" "p" 0
        ⟨true, ⟨true, none⟩, ⟨true, some 2⟩, ⟨true, some 3⟩, ⟨true, none⟩⟩).record = none) ∧
    (gofishOk ⟨true, some 2⟩ = true → gofishOk ⟨true, some 3⟩ = false →
      (collectHost "h1" "u" "p" 0
        ⟨true, ⟨true, none⟩, ⟨true, some 2⟩, ⟨true, some 3⟩, ⟨true, none⟩⟩).ran =
        [Category.inventory, Category.chassis, Category.ethernet] ∧
      (collectHost "h1" "u" "p" 0
        ⟨true, ⟨true, none⟩, ⟨true, some 2⟩, ⟨true, some 3⟩, ⟨true, none⟩⟩).record = none) ∧
    (bmclibOk ⟨true, none⟩ = false →
      Category.inventory ∈ (collectHost "h1" "u" "p" 0
        ⟨true, ⟨true, none⟩, ⟨true, some 2⟩, ⟨true, some 3⟩, ⟨true, none⟩⟩).errs) ∧
    (gofishOk ⟨true, some 2⟩ = true → gofishOk ⟨true, some 3⟩ = true →
        gofishOk ⟨true, none⟩ = false →
      Category.systems ∈ (collectHost "h1" "u" "p" 0
        ⟨true, ⟨true, none⟩, ⟨true, some 2⟩, ⟨true, some 3⟩, ⟨true, none⟩⟩).errs) ∧
    (gofishOk ⟨true, some 2⟩ = false →
      Category.chassis ∈ (collectHost "h1" "u" "p" 0
        ⟨true, ⟨true, none⟩, ⟨true, some 2⟩, ⟨true, some 3⟩, ⟨true, none⟩⟩).errs) ∧
    (gofishOk ⟨true, some 2⟩ = true → gofishOk ⟨true, some 3⟩ = false →
      Category.ethernet ∈ (collectHost "h1" "u" "p" 0
        ⟨true, ⟨true, none⟩, ⟨true, some 2⟩, ⟨true, some 3⟩, ⟨true, none⟩⟩).errs) :=
  category_failure_policy "h1" "u" "p" 0
    ⟨true, ⟨true, none⟩, ⟨true, some 2⟩, ⟨true, some 3⟩, ⟨true, none⟩⟩ rfl

/-- C2 as written fails on the code: evaluating the worker body at a host
where every category query succeeds (EthernetInterfaces payload 3), the
written record holds `Interface: null` rather than the interfaces payload,
because `QueryEthernetInterfaces` nests the payload under the key
`Interfaces` while `CollectInfo` reads `rm["Interface"]`; and at a host where
only Inventory fails, the record still holds the key `Inventory`, with value
null, rather than omitting it. -/
theorem interface_and_failed_keys_bug :
    ((collectHost "h1" "u" "p" 0
        ⟨true, ⟨true, some 1⟩, ⟨true, some 2⟩, ⟨true, some 3⟩, ⟨true, some 4⟩⟩).record.map
      (fun d => alookup d "Interface")) = some (some Jval.null) ∧
    ((collectHost "h1" "u" "p" 0
        ⟨true, ⟨true, some 1⟩, ⟨true, some 2⟩, ⟨true, some 3⟩, ⟨true, some 4⟩⟩).record.map
      (fun d => alookup d "Interfaces")) = some none ∧
    Category.inventory ∈ (collectHost "h1" "u" "p" 0
        ⟨true, ⟨true, none⟩, ⟨true, some 2⟩, ⟨true, some 3⟩, ⟨true, some 4⟩⟩).errs ∧
    ((collectHost "h1" "u" "p" 0
        ⟨true, ⟨true, none⟩, ⟨true, some 2⟩, ⟨true, some 3⟩, ⟨true, some 4⟩⟩).record.map
      (fun d => alookup d "Inventory")) = some (some Jval.null) := by
  decide

/-- C3 as written fails on the code: the shared `node.NodeBMC` counter is
read (line 164) and incremented (line 226) by workers with no
synchronization.  Under the interleaving in which two workers both read the
counter before either increments it, both successfully recorded hosts get
the identifier x1000c1s7b-1, so the identifiers of a run with two recorded
hosts are not pairwise distinct. -/
theorem duplicate_identifier_schedule :
    (runSched (fun _ => true)
      (initState [⟨"H1", 443, "redfish", true⟩, ⟨"H2", 443, "redfish", true⟩] 2)
      [Thread.main, Thread.main, Thread.worker 0, Thread.worker 1,
       Thread.worker 0, Thread.worker 1, Thread.worker 0, Thread.worker 1]).recordedIds =
      ["x1000c1s7b-1", "x1000c1s7b-1"] ∧
    ¬ (runSched (fun _ => true)
      (initState [⟨"H1", 443, "redfish", true⟩, ⟨"H2", 443, "redfish", true⟩] 2)
      [Thread.main, Thread.main, Thread.worker 0, Thread.worker 1,
       Thread.worker 0, Thread.worker 1, Thread.worker 0, Thread.worker 1]).recordedIds.Nodup := by
  decide

/-- C4 counterexample: the secondary done goroutine really does race the
counted join.  On the schedule where the single worker drains the queue and
exits, the main goroutine passes `wg.Wait()`, closes `done` and returns, and
only then the secondary goroutine runs: its `case <-done` fires, it calls
`wg.Done()` on the already-drained WaitGroup and drives the counter negative
(a Go runtime panic).  So completion is not a single counted join with no
secondary done signal racing against it. -/
theorem secondary_done_race_counterexample :
    (runSched (fun _ => true) (initState [⟨"H1", 443, "redfish", true⟩] 1)
      [Thread.main, Thread.main, Thread.main, Thread.main,
       Thread.worker 0, Thread.worker 0, Thread.worker 0, Thread.worker 0,
       Thread.main, Thread.main, Thread.sec]).mainPC = MainPC.returned ∧
    (runSched (fun _ => true) (initState [⟨"H1", 443, "redfish", true⟩] 1)
      [Thread.main, Thread.main, Thread.main, Thread.main,
       Thread.worker 0, Thread.worker 0, Thread.worker 0, Thread.worker 0,
       Thread.main, Thread.main, Thread.sec]).secFired = true ∧
    (runSched (fun _ => true) (initState [⟨"H1", 443, "redfish", true⟩] 1)
      [Thread.main, Thread.main, Thread.main, Thread.main,
       Thread.worker 0, Thread.worker 0, Thread.worker 0, Thread.worker 0,
       Thread.main, Thread.main, Thread.sec]).panicked = true := by
  decide

/-- Auxiliary: setting an index that holds an element the predicate rejects
to another rejected element leaves `countP` unchanged. -/
theorem countP_set_not_to_not {α : Type} (p : α → Bool) :
    ∀ (l : List α) (i : Nat) (a b : α), l[i]? = some a → p a = false → p b = false →
      (l.set i b).countP p = l.countP p := by
  intro l
  induction l with
  | nil => intro i a b h _ _; simp at h
  | cons x xs ih =>
    intro i a b h ha hb
    cases i with
    | zero =>
        simp at h
        subst h
        simp [List.countP_cons, ha, hb]
    | succ n =>
        simp at h
        simp [List.countP_cons, ih n a b h ha hb]

/-- Auxiliary: setting an index that holds an element the predicate rejects
to an element it accepts raises `countP` by one. -/
theorem countP_set_not_to_yes {α : Type} (p : α → Bool) :
    ∀ (l : List α) (i : Nat) (a b : α), l[i]? = some a → p a = false → p b = true →
      (l.set i b).countP p = l.countP p + 1 := by
  intro l
  induction l with
  | nil => intro i a b h _ _; simp at h
  | cons x xs ih =>
    intro i a b h ha hb
    cases i with
    | zero =>
        simp at h
        subst h
        simp [List.countP_cons, ha, hb]
    | succ n =>
        simp at h
        simp [List.countP_cons, ih n a b h ha hb]
        omega

/-- Auxiliary: a replicated rejected element contributes no `countP` hits. -/
theorem countP_replicate_not {α : Type} (p : α → Bool) (a : α) (h : p a = false) :
    ∀ n, (List.replicate n a).countP p = 0 := by
  intro n
  induction n with
  | zero => simp
  | succ k ih => simp [List.replicate, List.countP_cons, h, ih]

/-- The main goroutine is at or past `close(chanProbeState)` having run it. -/
def pastCloseChan : MainPC → Bool
  | MainPC.waitJoin => true
  | MainPC.closeDone => true
  | MainPC.returned => true
  | _ => false

/-- The main goroutine is past `wg.Wait()`. -/
def pastWait : MainPC → Bool
  | MainPC.closeDone => true
  | MainPC.returned => true
  | _ => false

/-- The inductive invariant of the interleaving model of `CollectInfo`: the
WaitGroup counter accounts exactly for worker exits and the (at most one)
firing of the secondary done goroutine; the channel is closed exactly when
the main goroutine is past `close(chanProbeState)`; workers can only have
exited after the close; `done` is closed exactly when the main goroutine has
returned; the secondary goroutine can only have fired after `done` closed;
once any worker has exited the queue is empty and stays empty; and past
`wg.Wait()` every worker has exited. -/
structure Inv (s : OrchState) : Prop where
  wlen : s.workers.length = s.threads
  cnt : s.counter =
    (s.threads : Int) - (exitedCount s : Int) - (if s.secFired then 1 else 0)
  chan_eq : s.closedChan = pastCloseChan s.mainPC
  exit_chan : exitedCount s ≠ 0 → s.closedChan = true
  done_eq : s.closedDone = (s.mainPC == MainPC.returned)
  fired_done : s.secFired = true → s.closedDone = true
  fired_fin : s.secFired = true → s.sec = SecPhase.finished
  exit_queue : exitedCount s ≠ 0 → s.queue = []
  done_exit : pastWait s.mainPC = true → exitedCount s = s.threads

/-- Auxiliary: when every worker has exited by count, each slot holds
`exited`. -/
theorem all_exited_of_count (s : OrchState) (h1 : s.workers.length = s.threads)
    (h2 : exitedCount s = s.threads) : ∀ w ∈ s.workers, w = WorkerPhase.exited := by
  intro w hw
  have hall : ∀ a ∈ s.workers, (a == WorkerPhase.exited) = true := by
    apply List.countP_eq_length.mp
    rw [← exitedCount]
    rw [h2, ← h1]
  simpa using hall w hw

/-- Auxiliary: the invariant holds initially. -/
theorem inv_init (probes : List BMCProbeResult) (threads : Nat) :
    Inv (initState probes threads) := by
  refine ⟨?_, ?_, ?_, ?_, ?_, ?_, ?_, ?_, ?_⟩ <;>
    simp [initState, exitedCount, pastCloseChan, pastWait,
      countP_replicate_not (fun w => w == WorkerPhase.exited) WorkerPhase.idle rfl]

/-- Auxiliary: an element found by index is a member. -/
theorem mem_of_index {α : Type} : ∀ (l : List α) (i : Nat) (a : α),
    l[i]? = some a → a ∈ l := by
  intro l
  induction l with
  | nil => intro i a h; simp at h
  | cons x xs ih =>
    intro i a h
    cases i with
    | zero =>
        simp at h
        subst h
        exact List.mem_cons_self x xs
    | succ n =>
        simp at h
        exact List.mem_cons_of_mem x (ih n a h)

/-- Auxiliary: the invariant is preserved by a main-goroutine step. -/
theorem inv_mainStep (s : OrchState) (h : Inv s) : Inv (mainStep s) := by
  obtain ⟨h1, h2, h3, h4, h5, h6, h7, h8, h9⟩ := h
  cases hpc : s.mainPC with
  | dispatch i =>
      have hch : s.closedChan = false := by rw [h3, hpc]; rfl
      have hcd : s.closedDone = false := by rw [h5, hpc]; rfl
      have hex : exitedCount s = 0 := by
        by_contra hne
        rw [h4 hne] at hch
        cases hch
      simp only [mainStep, hpc]
      split
      · exact ⟨h1, h2, hch, fun hne => absurd hex hne, hcd, h6, h7, h8,
          fun hw => by cases hw⟩
      · split
        · exact ⟨h1, h2, hch, fun hne => absurd hex hne, hcd, h6, h7, h8,
            fun hw => by cases hw⟩
        · split
          · exact ⟨h1, h2, hch, fun hne => absurd hex hne, hcd, h6, h7,
              fun hne => absurd hex hne, fun hw => by cases hw⟩
          · exact ⟨h1, h2, h3, h4, h5, h6, h7, h8, h9⟩
  | spawnSec =>
      have hch : s.closedChan = false := by rw [h3, hpc]; rfl
      have hcd : s.closedDone = false := by rw [h5, hpc]; rfl
      have hsf : s.secFired = false := by
        cases hb : s.secFired
        · rfl
        · rw [h6 hb] at hcd; cases hcd
      simp only [mainStep, hpc]
      refine ⟨h1, h2, hch, ?_, hcd, h6, ?_, h8, fun hw => by cases hw⟩
      · intro hne
        exact absurd (h4 hne) (by rw [hch]; simp)
      · intro hb
        rw [hsf] at hb
        cases hb
  | closeChan =>
      have hcd : s.closedDone = false := by rw [h5, hpc]; rfl
      simp only [mainStep, hpc]
      exact ⟨h1, h2, rfl, fun _ => rfl, hcd, h6, h7, h8, fun hw => by cases hw⟩
  | waitJoin =>
      have hch : s.closedChan = true := by rw [h3, hpc]; rfl
      have hcd : s.closedDone = false := by rw [h5, hpc]; rfl
      have hsf : s.secFired = false := by
        cases hb : s.secFired
        · rfl
        · rw [h6 hb] at hcd; cases hcd
      simp only [mainStep, hpc]
      split
      · next hc0 =>
          have hext : exitedCount s = s.threads := by
            rw [hsf] at h2
            rw [hc0] at h2
            simp at h2
            omega
          exact ⟨h1, h2, hch, fun _ => hch, hcd, h6, h7, h8, fun _ => hext⟩
      · exact ⟨h1, h2, h3, h4, h5, h6, h7, h8, h9⟩
  | closeDone =>
      have hch : s.closedChan = true := by rw [h3, hpc]; rfl
      have hext : exitedCount s = s.threads := h9 (by simp [hpc, pastWait])
      simp only [mainStep, hpc]
      exact ⟨h1, h2, hch, fun _ => hch, rfl, fun _ => rfl, h7, h8, fun _ => hext⟩
  | returned =>
      simp only [mainStep, hpc]
      exact ⟨h1, h2, h3, h4, h5, h6, h7, h8, h9⟩

/-- Auxiliary: the invariant is preserved by a worker-goroutine step. -/
theorem inv_workerStep (ok : BMCProbeResult → Bool) (s : OrchState) (i : Nat)
    (h : Inv s) : Inv (workerStep ok s i) := by
  obtain ⟨h1, h2, h3, h4, h5, h6, h7, h8, h9⟩ := h
  cases hw : s.workers[i]? with
  | none =>
      simp only [workerStep, hw]
      exact ⟨h1, h2, h3, h4, h5, h6, h7, h8, h9⟩
  | some wp =>
      cases wp with
      | idle =>
          simp only [workerStep, hw]
          split
          · next t rest hq =>
              have hcnt : (s.workers.set i (WorkerPhase.gotTask t)).countP
                  (fun w => w == WorkerPhase.exited) = exitedCount s :=
                countP_set_not_to_not _ s.workers i WorkerPhase.idle
                  (WorkerPhase.gotTask t) hw rfl rfl
              refine ⟨?_, ?_, h3, ?_, h5, h6, h7, ?_, ?_⟩
              · simpa using h1
              · show s.counter = (s.threads : Int) -
                  ((s.workers.set i (WorkerPhase.gotTask t)).countP
                    (fun w => w == WorkerPhase.exited) : Int) -
                  (if s.secFired then 1 else 0)
                rw [hcnt]
                exact h2
              · intro hne
                apply h4
                rw [← hcnt]
                exact hne
              · intro hne
                exfalso
                have hqe := h8 (by rw [← hcnt]; exact hne)
                rw [hq] at hqe
                cases hqe
              · intro hpw
                show (s.workers.set i (WorkerPhase.gotTask t)).countP
                    (fun w => w == WorkerPhase.exited) = s.threads
                rw [hcnt]
                exact h9 hpw
          · next hq =>
              split
              · next hcl =>
                  have hcnt : (s.workers.set i WorkerPhase.exited).countP
                      (fun w => w == WorkerPhase.exited) = exitedCount s + 1 :=
                    countP_set_not_to_yes _ s.workers i WorkerPhase.idle
                      WorkerPhase.exited hw rfl rfl
                  refine ⟨?_, ?_, h3, fun _ => hcl, h5, h6, h7, fun _ => hq, ?_⟩
                  · simpa using h1
                  · show s.counter - 1 = (s.threads : Int) -
                      ((s.workers.set i WorkerPhase.exited).countP
                        (fun w => w == WorkerPhase.exited) : Int) -
                      (if s.secFired then 1 else 0)
                    rw [hcnt]
                    cases hsf : s.secFired <;> rw [hsf] at h2 <;> simp at h2 ⊢ <;> omega
                  · intro hpw
                    have hext := h9 hpw
                    have hall := all_exited_of_count s h1 hext
                    cases hall WorkerPhase.idle (mem_of_index s.workers i _ hw)
              · exact ⟨h1, h2, h3, h4, h5, h6, h7, h8, h9⟩
      | gotTask t =>
          simp only [workerStep, hw]
          split
          · have hcnt : (s.workers.set i (WorkerPhase.haveId t s.nodeBMC)).countP
                (fun w => w == WorkerPhase.exited) = exitedCount s :=
              countP_set_not_to_not _ s.workers i (WorkerPhase.gotTask t)
                (WorkerPhase.haveId t s.nodeBMC) hw rfl rfl
            refine ⟨?_, ?_, h3, ?_, h5, h6, h7, ?_, ?_⟩
            · simpa using h1
            · show s.counter = (s.threads : Int) -
                ((s.workers.set i (WorkerPhase.haveId t s.nodeBMC)).countP
                  (fun w => w == WorkerPhase.exited) : Int) -
                (if s.secFired then 1 else 0)
              rw [hcnt]
              exact h2
            · intro hne
              apply h4
              rw [← hcnt]
              exact hne
            · intro hne
              apply h8
              rw [← hcnt]
              exact hne
            · intro hpw
              show (s.workers.set i (WorkerPhase.haveId t s.nodeBMC)).countP
                  (fun w => w == WorkerPhase.exited) = s.threads
              rw [hcnt]
              exact h9 hpw
          · have hcnt : (s.workers.set i WorkerPhase.idle).countP
                (fun w => w == WorkerPhase.exited) = exitedCount s :=
              countP_set_not_to_not _ s.workers i (WorkerPhase.gotTask t)
                WorkerPhase.idle hw rfl rfl
            refine ⟨?_, ?_, h3, ?_, h5, h6, h7, ?_, ?_⟩
            · simpa using h1
            · show s.counter = (s.threads : Int) -
                ((s.workers.set i WorkerPhase.idle).countP
                  (fun w => w == WorkerPhase.exited) : Int) -
                (if s.secFired then 1 else 0)
              rw [hcnt]
              exact h2
            · intro hne
              apply h4
              rw [← hcnt]
              exact hne
            · intro hne
              apply h8
              rw [← hcnt]
              exact hne
            · intro hpw
              show (s.workers.set i WorkerPhase.idle).countP
                  (fun w => w == WorkerPhase.exited) = s.threads
              rw [hcnt]
              exact h9 hpw
      | haveId t snap =>
          simp only [workerStep, hw]
          have hcnt : (s.workers.set i WorkerPhase.idle).countP
              (fun w => w == WorkerPhase.exited) = exitedCount s :=
            countP_set_not_to_not _ s.workers i (WorkerPhase.haveId t snap)
              WorkerPhase.idle hw rfl rfl
          refine ⟨?_, ?_, h3, ?_, h5, h6, h7, ?_, ?_⟩
          · simpa using h1
          · show s.counter = (s.threads : Int) -
              ((s.workers.set i WorkerPhase.idle).countP
                (fun w => w == WorkerPhase.exited) : Int) -
              (if s.secFired then 1 else 0)
            rw [hcnt]
            exact h2
          · intro hne
            apply h4
            rw [← hcnt]
            exact hne
          · intro hne
            apply h8
            rw [← hcnt]
            exact hne
          · intro hpw
            show (s.workers.set i WorkerPhase.idle).countP
                (fun w => w == WorkerPhase.exited) = s.threads
            rw [hcnt]
            exact h9 hpw
      | exited =>
          simp only [workerStep, hw]
          exact ⟨h1, h2, h3, h4, h5, h6, h7, h8, h9⟩

/-- Auxiliary: the invariant is preserved by a secondary-goroutine step. -/
theorem inv_secStep (s : OrchState) (h : Inv s) : Inv (secStep s) := by
  obtain ⟨h1, h2, h3, h4, h5, h6, h7, h8, h9⟩ := h
  cases hsp : s.sec with
  | notSpawned =>
      simp only [secStep, hsp]
      exact ⟨h1, h2, h3, h4, h5, h6, h7, h8, h9⟩
  | finished =>
      simp only [secStep, hsp]
      exact ⟨h1, h2, h3, h4, h5, h6, h7, h8, h9⟩
  | runnable =>
      have hsf : s.secFired = false := by
        cases hb : s.secFired
        · rfl
        · rw [h7 hb] at hsp; cases hsp
      simp only [secStep, hsp]
      split
      · next hcd =>
          refine ⟨h1, ?_, h3, h4, h5, fun _ => hcd, fun _ => rfl, h8, h9⟩
          show s.counter - 1 = (s.threads : Int) - (exitedCount s : Int) -
            (if true then 1 else 0)
          rw [hsf] at h2
          simp at h2 ⊢
          omega
      · exact ⟨h1, h2, h3, h4, h5, h6, fun _ => rfl, h8, h9⟩

/-- Auxiliary: the invariant is preserved by every interleaving step. -/
theorem inv_step (ok : BMCProbeResult → Bool) (s : OrchState) (th : Thread)
    (h : Inv s) : Inv (step ok s th) := by
  cases th with
  | main => exact inv_mainStep s h
  | worker i => exact inv_workerStep ok s i h
  | sec => exact inv_secStep s h

/-- Auxiliary: the invariant holds after any schedule. -/
theorem inv_runSched (ok : BMCProbeResult → Bool) (sched : List Thread) :
    ∀ s : OrchState, Inv s → Inv (runSched ok s sched) := by
  induction sched with
  | nil => intro s hs; simpa [runSched] using hs
  | cons th rest ih =>
      intro s hs
      simpa [runSched] using ih (step ok s th) (inv_step ok s th hs)

/-- Auxiliary: no step changes the thread count. -/
theorem step_threads (ok : BMCProbeResult → Bool) (s : OrchState) (th : Thread) :
    (step ok s th).threads = s.threads := by
  cases th with
  | main =>
      show (mainStep s).threads = s.threads
      unfold mainStep
      repeat' split
      all_goals rfl
  | worker i =>
      show (workerStep ok s i).threads = s.threads
      unfold workerStep
      repeat' split
      all_goals rfl
  | sec =>
      show (secStep s).threads = s.threads
      unfold secStep
      repeat' split
      all_goals rfl

/-- Auxiliary: no schedule changes the thread count. -/
theorem runSched_threads (ok : BMCProbeResult → Bool) (sched : List Thread) :
    ∀ s : OrchState, (runSched ok s sched).threads = s.threads := by
  induction sched with
  | nil => intro s; rfl
  | cons th rest ih =>
      intro s
      have hs : runSched ok s (th :: rest) = runSched ok (step ok s th) rest := rfl
      rw [hs, ih (step ok s th), step_threads]

/-- C4 amended: the counted join is authoritative.  On every schedule on
which the orchestrator has returned, the intake channel has been closed,
every worker has exited (each worker exits only upon finding the channel
closed and drained), and, when the worker count is positive, the intake
queue is empty.  The secondary done goroutine can never fire before the join
completes — its only possible effect, shown by the counterexample, is a
WaitGroup panic after completion. -/
theorem join_blocks_until_workers_exit (ok : BMCProbeResult → Bool)
    (probes : List BMCProbeResult) (threads : Nat) (sched : List Thread)
    (hret : (runSched ok (initState probes threads) sched).mainPC = MainPC.returned) :
    (runSched ok (initState probes threads) sched).closedChan = true ∧
    (∀ w ∈ (runSched ok (initState probes threads) sched).workers,
      w = WorkerPhase.exited) ∧
    (0 < threads → (runSched ok (initState probes threads) sched).queue = []) := by
  have hinv := inv_runSched ok sched (initState probes threads) (inv_init probes threads)
  have hthr : (runSched ok (initState probes threads) sched).threads = threads :=
    runSched_threads ok sched (initState probes threads)
  obtain ⟨h1, h2, h3, h4, h5, h6, h7, h8, h9⟩ := hinv
  have hext : exitedCount (runSched ok (initState probes threads) sched) =
      (runSched ok (initState probes threads) sched).threads :=
    h9 (by simp [hret, pastWait])
  refine ⟨?_, ?_, ?_⟩
  · rw [h3, hret]
    rfl
  · exact all_exited_of_count _ h1 hext
  · intro hpos
    apply h8
    rw [hext, hthr]
    omega

/-- C4 amended witness: the join property instantiated on a concrete
schedule in which the orchestrator runs to completion. -/
theorem join_blocks_until_workers_exit_witness :
    (runSched (fun _ => true) (initState [⟨"H1", 443, "redfish", true⟩] 1)
      [Thread.main, Thread.main, Thread.main, Thread.main, Thread.worker 0,
       Thread.worker 0, Thread.worker 0, Thread.worker 0, Thread.main,
       Thread.main]).closedChan = true ∧
    (∀ w ∈ (runSched (fun _ => true) (initState [⟨"H1", 443, "redfish", true⟩] 1)
      [Thread.main, Thread.main, Thread.main, Thread.main, Thread.worker 0,
       Thread.worker 0, Thread.worker 0, Thread.worker 0, Thread.main,
       Thread.main]).workers, w = WorkerPhase.exited) ∧
    (0 < 1 → (runSched (fun _ => true) (initState [⟨"H1", 443, "redfish", true⟩] 1)
      [Thread.main, Thread.main, Thread.main, Thread.main, Thread.worker 0,
       Thread.worker 0, Thread.worker 0, Thread.worker 0, Thread.main,
       Thread.main]).queue = []) :=
  join_blocks_until_workers_exit (fun _ => true) [⟨"H1", 443, "redfish", true⟩] 1
    [Thread.main, Thread.main, Thread.main, Thread.main, Thread.worker 0,
     Thread.worker 0, Thread.worker 0, Thread.worker 0, Thread.main,
     Thread.main] (by decide)

/-- Auxiliary: one step never puts an unreachable probe result into the
dispatched ledger. -/
theorem step_dispatched_state (ok : BMCProbeResult → Bool) (s : OrchState)
    (th : Thread) (hall : ∀ t ∈ s.dispatched, t.State = true) :
    ∀ t ∈ (step ok s th).dispatched, t.State = true := by
  cases th with
  | worker i =>
      intro t ht
      simp only [step] at ht
      apply hall
      have hd : (workerStep ok s i).dispatched = s.dispatched := by
        unfold workerStep
        repeat' split
        all_goals rfl
      rwa [hd] at ht
  | sec =>
      intro t ht
      simp only [step] at ht
      apply hall
      have hd : (secStep s).dispatched = s.dispatched := by
        unfold secStep
        repeat' split
        all_goals rfl
      rwa [hd] at ht
  | main =>
      intro t ht
      simp only [step] at ht
      unfold mainStep at ht
      split at ht
      · split at ht
        · exact hall t ht
        · split at ht
          · exact hall t ht
          · split at ht
            · next hskip hroom =>
                rcases List.mem_append.mp ht with hmem | hmem
                · exact hall t hmem
                · rw [List.mem_singleton] at hmem
                  subst hmem
                  simp only [not_or] at hskip
                  simpa using hskip.1
            · exact hall t ht
      · exact hall t ht
      · exact hall t ht
      · split at ht
        · exact hall t ht
        · exact hall t ht
      · exact hall t ht
      · exact hall t ht

/-- Auxiliary: no schedule puts an unreachable probe result into the
dispatched ledger. -/
theorem runSched_dispatched_state (ok : BMCProbeResult → Bool) (sched : List Thread) :
    ∀ s : OrchState, (∀ t ∈ s.dispatched, t.State = true) →
      ∀ t ∈ (runSched ok s sched).dispatched, t.State = true := by
  induction sched with
  | nil => intro s hs; exact hs
  | cons th rest ih =>
      intro s hs
      exact ih (step ok s th) (step_dispatched_state ok s th hs)

/-- C9: for every probe result whose Reachable flag (`State`) is false, no
collection task is ever dispatched for it — on every schedule, every entry
of the dispatched ledger has `State = true`, because the dispatch loop skips
a probe result before sending whenever `!ps.State`. -/
theorem unreachable_never_dispatched (ok : BMCProbeResult → Bool)
    (probes : List BMCProbeResult) (threads : Nat) (sched : List Thread)
    (t : BMCProbeResult)
    (ht : t ∈ (runSched ok (initState probes threads) sched).dispatched) :
    t.State = true :=
  runSched_dispatched_state ok sched (initState probes threads)
    (by intro t2 ht2; simp [initState] at ht2) t ht

/-- C9 witness: the dispatch-only-reachable property instantiated on a
concrete run whose probe set holds one reachable and one unreachable
entry. -/
theorem unreachable_never_dispatched_witness :
    BMCProbeResult.State ⟨"H1", 443, "redfish", true⟩ = true :=
  unreachable_never_dispatched (fun _ => true)
    [⟨"H1", 443, "redfish", true⟩, ⟨"H2", 22, "ssh", false⟩] 1
    [Thread.main, Thread.main] ⟨"H1", 443, "redfish", true⟩ (by decide)

/-- C5 counterexample: a host probed twice (H1 on ports 443 and 22, both
reachable) has both of its probe results dispatched when the dispatcher runs
before any worker completes the host, because the `found` dedup list is only
appended to after a collection finishes.  The probe set holds H1 twice and
two tasks for H1 are dispatched, not exactly one. -/
theorem duplicate_host_double_dispatch_counterexample :
    ((initState [⟨"H1", 443, "redfish", true⟩, ⟨"H1", 22, "ssh", true⟩] 1).probes.countP
      (fun t => t.Host == "H1")) = 2 ∧
    ((runSched (fun _ => true)
        (initState [⟨"H1", 443, "redfish", true⟩, ⟨"H1", 22, "ssh", true⟩] 1)
        [Thread.main, Thread.main]).dispatched.countP
      (fun t => t.Host == "H1")) = 2 := by
  decide

/-- C5 amended: the dedup the code actually implements.  At a dispatch step
the probe result under consideration is sent (and recorded in the dispatched
ledger) iff it is reachable, its host is not yet in the `found` list at the
moment of the check, and the channel buffer has room; and the `found` list
only ever grows when a worker finishes collecting a host (reaching line
269).  Hence duplicate probes of one host are dropped only when an earlier
task for that host already completed before the check; otherwise each
duplicate is dispatched. -/
theorem dedup_drops_only_completed_hosts (s : OrchState) (i : Nat)
    (ps : BMCProbeResult) (hpc : s.mainPC = MainPC.dispatch i)
    (hp : s.probes[i]? = some ps) :
    ((mainStep s).dispatched =
      if ps.State = true ∧ s.found.contains ps.Host = false ∧
          s.queue.length < s.threads + 1
      then s.dispatched ++ [ps] else s.dispatched) ∧
    (∀ ok j, (workerStep ok s j).found ≠ s.found →
      ∃ t snap, s.workers[j]? = some (WorkerPhase.haveId t snap) ∧
        (workerStep ok s j).found = s.found ++ [t.Host]) := by
  constructor
  · simp only [mainStep, hpc, hp]
    cases hst : ps.State <;> cases hfd : s.found.contains ps.Host <;>
      by_cases hroom : s.queue.length < s.threads + 1 <;>
      simp [hst, hfd, hroom]
  · intro ok j hne
    cases hw : s.workers[j]? with
    | none =>
        simp only [workerStep, hw] at hne
        exact absurd rfl hne
    | some wp =>
        cases wp with
        | idle =>
            simp only [workerStep, hw] at hne
            split at hne
            · exact absurd rfl hne
            · split at hne
              · exact absurd rfl hne
              · exact absurd rfl hne
        | gotTask t =>
            simp only [workerStep, hw] at hne
            split at hne
            · exact absurd rfl hne
            · exact absurd rfl hne
        | haveId t snap =>
            refine ⟨t, snap, rfl, ?_⟩
            simp [workerStep, hw]
        | exited =>
            simp only [workerStep, hw] at hne
            exact absurd rfl hne

/-- C5 amended witness: the dispatch characterization instantiated at the
initial state of a run whose probe set holds the same host twice. -/
theorem dedup_drops_only_completed_hosts_witness :
    ((mainStep (initState [⟨"H1", 443, "redfish", true⟩, ⟨"H1", 22, "ssh", true⟩] 1)).dispatched =
      if (⟨"H1", 443, "redfish", true⟩ : BMCProbeResult).State = true ∧
          (initState [⟨"H1", 443, "redfish", true⟩, ⟨"H1", 22, "ssh", true⟩] 1).found.contains
            (⟨"H1", 443, "redfish", true⟩ : BMCProbeResult).Host = false ∧
          (initState [⟨"H1", 443, "redfish", true⟩, ⟨"H1", 22, "ssh", true⟩] 1).queue.length <
            (initState [⟨"H1", 443, "redfish", true⟩, ⟨"H1", 22, "ssh", true⟩] 1).threads + 1
      then (initState [⟨"H1", 443, "redfish", true⟩, ⟨"H1", 22, "ssh", true⟩] 1).dispatched ++
        [⟨"H1", 443, "redfish", true⟩]
      else (initState [⟨"H1", 443, "redfish", true⟩, ⟨"H1", 22, "ssh", true⟩] 1).dispatched) ∧
    (∀ ok j, (workerStep ok
        (initState [⟨"H1", 443, "redfish", true⟩, ⟨"H1", 22, "ssh", true⟩] 1) j).found ≠
        (initState [⟨"H1", 443, "redfish", true⟩, ⟨"H1", 22, "ssh", true⟩] 1).found →
      ∃ t snap,
        (initState [⟨"H1", 443, "redfish", true⟩, ⟨"H1", 22, "ssh", true⟩] 1).workers[j]? =
          some (WorkerPhase.haveId t snap) ∧
        (workerStep ok
          (initState [⟨"H1", 443, "redfish", true⟩, ⟨"H1", 22, "ssh", true⟩] 1) j).found =
          (initState [⟨"H1", 443, "redfish", true⟩, ⟨"H1", 22, "ssh", true⟩] 1).found ++
            [t.Host]) :=
  dedup_drops_only_completed_hosts
    (initState [⟨"H1", 443, "redfish", true⟩, ⟨"H1", 22, "ssh", true⟩] 1) 0
    ⟨"H1", 443, "redfish", true⟩ rfl rfl

/-- C6 counterexample: with a working client, an Inventory session open
failure (`client.Open` fails inside `QueryInventory`) does not abort the
host: the connection error is recorded as the Inventory category error, the
Chassis, EthernetInterfaces and Systems queries all still run on their own
gofish sessions, and the record is persisted. -/
theorem open_failure_not_host_abort_counterexample :
    (QueryInventory ⟨false, none⟩).1 = Except.error "could not open client" ∧
    Category.chassis ∈ (collectHost "h1" "u" "p" 0
        ⟨true, ⟨false, none⟩, ⟨true, some 2⟩, ⟨true, some 3⟩, ⟨true, some 4⟩⟩).ran ∧
    Category.systems ∈ (collectHost "h1" "u" "p" 0
        ⟨true, ⟨false, none⟩, ⟨true, some 2⟩, ⟨true, some 3⟩, ⟨true, some 4⟩⟩).ran ∧
    (collectHost "h1" "u" "p" 0
        ⟨true, ⟨false, none⟩, ⟨true, some 2⟩, ⟨true, some 3⟩, ⟨true, some 4⟩⟩).record.isSome
      = true := by
  decide

/-- C6 amended: what aborts a whole host before any category runs is a
`NewClient` build failure (the `continue` at line 159): then no category
query runs, nothing is persisted and no connection is opened.  A session
open failure happens inside an individual category query, which opens its
own session, and is a failure of that category only: for Inventory it is
recorded and collection continues with Chassis. -/
theorem client_failure_vs_open_failure (host user pass : String) (n : Int) (e : HostEnv) :
    (e.clientOk = false →
      collectHost host user pass n e =
        { ran := [], errs := [], clientErr := true, record := none,
          conns := { opened := 0, closed := 0 } }) ∧
    (e.clientOk = true → e.inv.openOk = false →
      Category.inventory ∈ (collectHost host user pass n e).errs ∧
      Category.chassis ∈ (collectHost host user pass n e).ran) := by
  rcases e with ⟨co, ⟨io, iv⟩, ⟨cc, cr⟩, ⟨ec, er⟩, ⟨sc, sr⟩⟩
  cases co <;> cases io <;> cases iv <;> cases cc <;> cases cr <;> cases ec <;> cases er <;>
      cases sc <;> cases sr <;>
    simp [collectHost, QueryInventory, QueryChassis, QueryEthernetInterfaces,
      QuerySystems]

/-- C6 amended witness: instantiated at a host whose client build fails. -/
theorem client_failure_vs_open_failure_witness :
    collectHost "h1" "u" "p" 0
        ⟨false, ⟨true, some 1⟩, ⟨true, some 2⟩, ⟨true, some 3⟩, ⟨true, some 4⟩⟩ =
      { ran := [], errs := [], clientErr := true, record := none,
        conns := { opened := 0, closed := 0 } } :=
  (client_failure_vs_open_failure "h1" "u" "p" 0
      ⟨false, ⟨true, some 1⟩, ⟨true, some 2⟩, ⟨true, some 3⟩, ⟨true, some 4⟩⟩).1 rfl

/-- C7 counterexample: with secure TLS requested, a bundle path supplied and
the file readable but holding no parseable PEM certificate (the
`AppendCertsFromPEM` oracle extracts nothing), `NewClient` succeeds and
installs an empty trust pool instead of returning an error: the boolean
result of `AppendCertsFromPEM` is discarded at line 93, so a parse failure
does not yield a ConnectionError. -/
theorem pem_parse_failure_ignored_counterexample :
    NewClient (fun _ => some [1, 2, 3]) (fun _ => [])
      { Host := "h1", Port := 443, User := "root", Pass := "pw",
        Drivers := ["redfish"], Threads := 1, Preferred := "", Timeout := 5,
        WithSecureTLS := true, CertPoolFile := "certs.pem", Verbose := false,
        IpmitoolPath := "/usr/bin/ipmitool", OutputPath := "out" } =
    Except.ok
      { url := "https://root:pw@h1", user := "root", pass := "pw",
        opts := [BmclibOption.withHTTPClient true,
                 BmclibOption.withRedfishHTTPClient true,
                 BmclibOption.withRedfishPort "443",
                 BmclibOption.withRedfishUseBasicAuth,
                 BmclibOption.withIpmitoolPort "623",
                 BmclibOption.withIpmitoolPath "/usr/bin/ipmitool",
                 BmclibOption.withSecureTLS (some [])],
        drivers := ["redfish"] } := by
  rfl

/-- C7 amended: the TLS trust policy of `NewClient`.  With secure TLS and a
bundle path, a read failure yields an error (fatal only to this host: the
orchestrator logs it and the worker moves on to the next task, modelled by
the last conjunct) and a readable bundle installs a pool holding exactly
whatever certificates parse out of it, silently empty on a parse failure;
with secure TLS and no bundle path a nil pool is installed, which bmclib
resolves to the system trust store. -/
theorem tls_trust_policy (readFile : String → Option (List Nat))
    (pem : List Nat → List Nat) (q : QueryParams) :
    (q.WithSecureTLS = true → q.CertPoolFile ≠ "" → readFile q.CertPoolFile = none →
      NewClient readFile pem q = Except.error "could not read cert pool file") ∧
    (q.WithSecureTLS = true → q.CertPoolFile = "" →
      ∃ c, NewClient readFile pem q = Except.ok c ∧
        BmclibOption.withSecureTLS none ∈ c.opts) ∧
    (∀ d, q.WithSecureTLS = true → q.CertPoolFile ≠ "" → readFile q.CertPoolFile = some d →
      ∃ c, NewClient readFile pem q = Except.ok c ∧
        BmclibOption.withSecureTLS (some (pem d)) ∈ c.opts) ∧
    (∀ ok s j t, s.workers[j]? = some (WorkerPhase.gotTask t) → ok t = false →
      workerStep ok s j = { s with workers := s.workers.set j WorkerPhase.idle }) := by
  refine ⟨?_, ?_, ?_, ?_⟩
  · intro h1 h2 h3
    simp [NewClient, h1, h2, h3]
  · intro h1 h2
    simp [NewClient, h1, h2]
  · intro d h1 h2 h3
    simp [NewClient, h1, h2, h3]
  · intro ok s j t h hfail
    simp [workerStep, h, hfail]

/-- C7 amended witness: the read-failure case instantiated at a concrete
configuration whose bundle file cannot be read. -/
theorem tls_trust_policy_witness :
    NewClient (fun _ => none) (fun d => d)
      { Host := "h1", Port := 443, User := "root", Pass := "pw",
        Drivers := ["redfish"], Threads := 1, Preferred := "", Timeout := 5,
        WithSecureTLS := true, CertPoolFile := "certs.pem", Verbose := false,
        IpmitoolPath := "/usr/bin/ipmitool", OutputPath := "out" } =
      Except.error "could not read cert pool file" :=
  (tls_trust_policy (fun _ => none) (fun d => d)
      { Host := "h1", Port := 443, User := "root", Pass := "pw",
        Drivers := ["redfish"], Threads := 1, Preferred := "", Timeout := 5,
        WithSecureTLS := true, CertPoolFile := "certs.pem", Verbose := false,
        IpmitoolPath := "/usr/bin/ipmitool", OutputPath := "out" }).1
    rfl (by decide) rfl

/-- C8 counterexample: `QueryChassis` with a successful gofish connect and a
successful service call returns with one connection opened and zero closed:
the connection `connectGofish` opened is not released on the success path
(and, as the amended theorem shows, not on the error path either). -/
theorem gofish_never_closed_counterexample :
    (QueryChassis ⟨true, some 5⟩).2.opened = 1 ∧
    (QueryChassis ⟨true, some 5⟩).2.closed = 0 ∧
    (QueryEthernetInterfaces ⟨true, none⟩).2.opened = 1 ∧
    (QueryEthernetInterfaces ⟨true, none⟩).2.closed = 0 := by
  decide

/-- C8 amended: the bmclib-based `QueryInventory` closes its session on every
exit path (the deferred `client.Close` runs on the error and the success
path alike, and nothing is open when `client.Open` itself fails), but every
gofish-based query function (`QueryChassis`, `QueryEthernetInterfaces`,
`QuerySystems`) leaves the connection it opened unclosed on every exit
path. -/
theorem connection_release_policy (benv : BmclibEnv) (genv : GofishEnv) :
    (QueryInventory benv).2.closed = (QueryInventory benv).2.opened ∧
    (QueryChassis genv).2 =
      (if genv.connectOk then { opened := 1, closed := 0 } else { opened := 0, closed := 0 }) ∧
    (QueryEthernetInterfaces genv).2 =
      (if genv.connectOk then { opened := 1, closed := 0 } else { opened := 0, closed := 0 }) ∧
    (QuerySystems genv).2 =
      (if genv.connectOk then { opened := 1, closed := 0 } else { opened := 0, closed := 0 }) := by
  rcases benv with ⟨bo, biv⟩
  rcases genv with ⟨gc, gr⟩
  cases bo <;> cases biv <;> cases gc <;> cases gr <;>
    simp [QueryInventory, QueryChassis, QueryEthernetInterfaces, QuerySystems]

/-- C10: for every input on which `NewClient` returns a client, the option
list starts with the generic and Redfish HTTP clients whose shared transport
has certificate verification disabled (`InsecureSkipVerify: true`), and any
`WithSecureTLS` option sits strictly after them (at index 6 or later): the
insecure transport is installed unconditionally, before any secure-TLS
option is appended. -/
theorem insecure_transport_unconditional (readFile : String → Option (List Nat))
    (pem : List Nat → List Nat) (q : QueryParams) (c : BmclibClient)
    (h : NewClient readFile pem q = Except.ok c) :
    c.opts.get? 0 = some (BmclibOption.withHTTPClient true) ∧
    c.opts.get? 1 = some (BmclibOption.withRedfishHTTPClient true) ∧
    (∀ i pool, c.opts.get? i = some (BmclibOption.withSecureTLS pool) → 6 ≤ i) := by
  by_cases hs : q.WithSecureTLS
  · by_cases hf : q.CertPoolFile = ""
    · simp [NewClient, hs, hf] at h
      subst h
      refine ⟨rfl, rfl, ?_⟩
      intro i pool hI
      by_contra hlt
      push_neg at hlt
      interval_cases i <;> simp_all
    · cases hr : readFile q.CertPoolFile with
      | none => simp [NewClient, hs, hf, hr] at h
      | some d =>
        simp [NewClient, hs, hf, hr] at h
        subst h
        refine ⟨rfl, rfl, ?_⟩
        intro i pool hI
        by_contra hlt
        push_neg at hlt
        interval_cases i <;> simp_all
  · simp [NewClient, hs] at h
    subst h
    refine ⟨rfl, rfl, ?_⟩
    intro i pool hI
    by_contra hlt
    push_neg at hlt
    interval_cases i <;> simp_all

/-- C10 witness: instantiated at a concrete secure-TLS configuration with a
readable bundle, so the option list really does contain a `WithSecureTLS`
entry after the two insecure HTTP clients. -/
theorem insecure_transport_unconditional_witness :
    ({ url := "https://root:pw@h1", user := "root", pass := "pw",
       opts := [BmclibOption.withHTTPClient true,
                BmclibOption.withRedfishHTTPClient true,
                BmclibOption.withRedfishPort "443",
                BmclibOption.withRedfishUseBasicAuth,
                BmclibOption.withIpmitoolPort "623",
                BmclibOption.withIpmitoolPath "/usr/bin/ipmitool",
                BmclibOption.withSecureTLS (some [1, 2, 3])],
       drivers := ["redfish"] } : BmclibClient).opts.get? 0 =
      some (BmclibOption.withHTTPClient true) ∧
    ({ url := "https://root:pw@h1", user := "root", pass := "pw",
       opts := [BmclibOption.withHTTPClient true,
                BmclibOption.withRedfishHTTPClient true,
                BmclibOption.withRedfishPort "443",
                BmclibOption.withRedfishUseBasicAuth,
                BmclibOption.withIpmitoolPort "623",
                BmclibOption.withIpmitoolPath "/usr/bin/ipmitool",
                BmclibOption.withSecureTLS (some [1, 2, 3])],
       drivers := ["redfish"] } : BmclibClient).opts.get? 1 =
      some (BmclibOption.withRedfishHTTPClient true) ∧
    (∀ i pool,
      ({ url := "https://root:pw@h1", user := "root", pass := "pw",
         opts := [BmclibOption.withHTTPClient true,
                  BmclibOption.withRedfishHTTPClient true,
                  BmclibOption.withRedfishPort "443",
                  BmclibOption.withRedfishUseBasicAuth,
                  BmclibOption.withIpmitoolPort "623",
                  BmclibOption.withIpmitoolPath "/usr/bin/ipmitool",
                  BmclibOption.withSecureTLS (some [1, 2, 3])],
         drivers := ["redfish"] } : BmclibClient).opts.get? i =
        some (BmclibOption.withSecureTLS pool) → 6 ≤ i) :=
  insecure_transport_unconditional (fun _ => some [1, 2, 3]) (fun d => d)
    { Host := "h1", Port := 443, User := "root", Pass := "pw",
      Drivers := ["redfish"], Threads := 1, Preferred := "", Timeout := 5,
      WithSecureTLS := true, CertPoolFile := "certs.pem", Verbose := false,
      IpmitoolPath := "/usr/bin/ipmitool", OutputPath := "out" }
    { url := "https://root:pw@h1", user := "root", pass := "pw",
      opts := [BmclibOption.withHTTPClient true,
               BmclibOption.withRedfishHTTPClient true,
               BmclibOption.withRedfishPort "443",
               BmclibOption.withRedfishUseBasicAuth,
               BmclibOption.withIpmitoolPort "623",
               BmclibOption.withIpmitoolPath "/usr/bin/ipmitool",
               BmclibOption.withSecureTLS (some [1, 2, 3])],
      drivers := ["redfish"] }
    (by rfl)

end Magellan
